import Mathlib

/-!
# Verification of `antibody_virtual_screening.py`

Shallow embedding of the antibody virtual-screening pipeline
(`AntibodyCandidate`, `load_antibody_data`, `screen_antibodies`,
`generate_report`) and proofs of its specified properties.

Modelling conventions:
* Python floats are modelled as exact rationals (`ℚ`); numeric claims are
  settled over exact arithmetic.
* Python functions that can raise `ZeroDivisionError` are modelled as
  `Except PyError _`; the error is produced exactly where the Python
  division-by-zero would be raised.
* Python's `sorted(..., key=f, reverse=True)` is a stable descending sort;
  it is modelled by `List.insertionSort` with the relation
  `scoreGE a b := composite_score b ≤ composite_score a`, whose
  `orderedInsert` places an earlier element before later equal-key
  elements — the same output any stable descending sort produces
  (sortedness + stability + permutation determine the output uniquely).
* Raw input dictionaries are modelled as association lists from field
  names to `RawValue` (a number, a string, or some other object);
  Python's `float(...)` coercion is modelled on numbers and on plain
  decimal string literals, raising (returning `none`) elsewhere.
-/

/-- Errors the Python code can raise and does not catch (here: only
`ZeroDivisionError` escapes the modelled functions). -/
inductive PyError where
  | zeroDivision
deriving DecidableEq, Repr

/-- The `AntibodyCandidate` dataclass: id, sequence, and four numeric
physicochemical attributes. -/
structure AntibodyCandidate where
  id : String
  sequence : String
  stability_score : ℚ
  solubility_score : ℚ
  immunogenicity_score : ℚ
  binding_affinity : ℚ
deriving DecidableEq, Repr

/-- The `composite_score` property of `AntibodyCandidate`:
`stability*0.3 + solubility*0.25 + (100-immunogenicity)*0.25
 + min(100, 100/(affinity+1))*0.2`, transcribed from the source. This is
the VALUE of the property where it is defined; at `binding_affinity = -1`
Python raises `ZeroDivisionError` instead of returning a value, so every
modelled caller that evaluates the property guards explicitly on the
denominator `binding_affinity + 1 = 0` and raises there (the total ℚ
division's value at 0 is never used on any modelled path). -/
def composite_score (c : AntibodyCandidate) : ℚ :=
  c.stability_score * 0.3 +
  c.solubility_score * 0.25 +
  (100 - c.immunogenicity_score) * 0.25 +
  min 100 (100 / (c.binding_affinity + 1)) * 0.2

/-- The composite-score formula exactly as the specification writes it
(weights written `0.30`/`0.25`/`0.25`/`0.20`), used to compare the code's
scorer against the spec's formula. -/
def composite_formula_spec (c : AntibodyCandidate) : ℚ :=
  c.stability_score * 0.30 +
  c.solubility_score * 0.25 +
  (100 - c.immunogenicity_score) * 0.25 +
  min 100 (100 / (c.binding_affinity + 1)) * 0.20

/-- The configuration dictionary (the keys the pipeline reads; the unused
`batch_size` entry is a dead option and is not part of the model). -/
structure Config where
  stability_threshold : ℚ
  solubility_threshold : ℚ
  immunogenicity_threshold : ℚ
  top_k : Nat
deriving DecidableEq, Repr

/-- The hard gate of `screen_antibodies`, transcribed from the three
`continue`-guards: a candidate is kept unless one of the three threshold
checks fails. -/
def passesGate (config : Config) (antibody : AntibodyCandidate) : Bool :=
  if antibody.stability_score < config.stability_threshold then false
  else if antibody.solubility_score < config.solubility_threshold then false
  else if config.immunogenicity_threshold < antibody.immunogenicity_score then false
  else true

/-- The hard gate as the specification words it: survive iff
`stability_score >= stability_threshold` and
`solubility_score >= solubility_threshold` and
`immunogenicity_score <= immunogenicity_threshold`. -/
def specGate (config : Config) (antibody : AntibodyCandidate) : Bool :=
  decide (config.stability_threshold ≤ antibody.stability_score ∧
          config.solubility_threshold ≤ antibody.solubility_score ∧
          antibody.immunogenicity_score ≤ config.immunogenicity_threshold)

/-- Descending comparison on composite scores: `scoreGE a b` holds when
`a`'s composite score is at least `b`'s. `sorted(key=composite, reverse=True)`
orders its output by this relation. -/
def scoreGE (a b : AntibodyCandidate) : Prop :=
  composite_score b ≤ composite_score a

instance : DecidableRel scoreGE := fun a b =>
  inferInstanceAs (Decidable (composite_score b ≤ composite_score a))

instance : IsTotal AntibodyCandidate scoreGE :=
  ⟨fun a b => le_total (composite_score b) (composite_score a)⟩

instance : IsTrans AntibodyCandidate scoreGE :=
  ⟨fun _ _ _ hab hbc => le_trans hbc hab⟩

/-- Model of Python's stable `sorted(candidates, key=composite_score,
reverse=True)`. -/
def sortByScoreDesc (l : List AntibodyCandidate) : List AntibodyCandidate :=
  List.insertionSort scoreGE l

/-- `screen_antibodies`: filter by the hard gate, sort survivors by
composite score descending, then log the pass rate, and finally return the
first `top_k` survivors. Two division-by-zero paths, in source order:
`sorted(...)` evaluates the key `x.composite_score` on every filtered
candidate, so a survivor with `binding_affinity = -1` raises
`ZeroDivisionError` there; otherwise the log line divides by
`len(candidates)`, so an empty input raises `ZeroDivisionError` before the
function returns. -/
def screen_antibodies (candidates : List AntibodyCandidate) (config : Config) :
    Except PyError (List AntibodyCandidate) :=
  let filtered := candidates.filter (passesGate config)
  if filtered.any (fun a => decide (a.binding_affinity + 1 = 0)) then
    Except.error PyError.zeroDivision
  else
    let ranked := sortByScoreDesc filtered
    if candidates.length = 0 then Except.error PyError.zeroDivision
    else Except.ok (ranked.take config.top_k)

/-! ## Loader (`load_antibody_data`) -/

/-- A value stored in a raw input record: a number, a string, or some other
Python object (modelled opaquely). -/
inductive RawValue where
  | num (q : ℚ)
  | text (s : String)
  | obj
deriving DecidableEq, Repr

/-- A raw input record: a dictionary from field names to values. -/
abbrev RawRecord := List (String × RawValue)

/-- Numeric value of a list of decimal digit characters. -/
def digitsVal (l : List Char) : Nat :=
  l.foldl (fun n c => n * 10 + (c.toNat - 48)) 0

/-- Python `float(s)` on a string, modelled for plain decimal literals
(optional sign, digits, optional fractional part); anything else raises
`ValueError`, modelled as `none`. -/
def decimalOfString (s : String) : Option ℚ :=
  let l := s.toList
  let signed : Bool × List Char :=
    match l with
    | '-' :: rest => (true, rest)
    | '+' :: rest => (false, rest)
    | _ => (false, l)
  let intPart := signed.2.takeWhile Char.isDigit
  let rest := signed.2.dropWhile Char.isDigit
  let magnitude : Option ℚ :=
    match rest with
    | [] => if intPart.isEmpty then none else some (digitsVal intPart)
    | '.' :: frac =>
      if frac.all Char.isDigit && !(intPart.isEmpty && frac.isEmpty) then
        some ((digitsVal intPart : ℚ) + (digitsVal frac : ℚ) / (10 : ℚ) ^ frac.length)
      else none
    | _ => none
  magnitude.map (fun v => if signed.1 then -v else v)

/-- Python `float(value)`: succeeds on numbers and numeric strings, raises
`ValueError`/`TypeError` (modelled as `none`) on anything else. -/
def toFloat : RawValue → Option ℚ
  | RawValue.num q => some q
  | RawValue.text s => decimalOfString s
  | RawValue.obj => none

/-- Python `str.upper()`: upper-case each character (the modelled inputs
are ASCII, where `Char.toUpper` agrees with Python's Unicode mapping);
defined structurally over the character list so that it evaluates by
reduction. -/
def pyUpper (s : String) : String :=
  String.mk (s.data.map Char.toUpper)

/-- Python `str(value)`: always succeeds; a number renders as its textual
form, any other object as some textual representation. -/
def pyStr : RawValue → String
  | RawValue.num q => toString q
  | RawValue.text s => s
  | RawValue.obj => "<object>"

/-- The six required fields checked by the Loader. -/
def requiredFields : List String :=
  ["id", "sequence", "stability_score", "solubility_score",
   "immunogenicity_score", "binding_affinity"]

/-- One iteration of the Loader's loop: completeness check, type coercions
(a failed `float(...)` raises `ValueError`/`TypeError`, caught and turned
into a skip), then the sequence-length business rule. `none` means the
record was skipped (`continue`). -/
def loadRecord (record : RawRecord) : Option AntibodyCandidate :=
  if requiredFields.all (fun field => (record.lookup field).isSome) then
    match toFloat ((record.lookup "stability_score").getD RawValue.obj),
          toFloat ((record.lookup "solubility_score").getD RawValue.obj),
          toFloat ((record.lookup "immunogenicity_score").getD RawValue.obj),
          toFloat ((record.lookup "binding_affinity").getD RawValue.obj) with
    | some stability, some solubility, some immunogenicity, some affinity =>
      let candidate : AntibodyCandidate :=
        { id := pyStr ((record.lookup "id").getD RawValue.obj)
          sequence := pyUpper (pyStr ((record.lookup "sequence").getD RawValue.obj))
          stability_score := stability
          solubility_score := solubility
          immunogenicity_score := immunogenicity
          binding_affinity := affinity }
      if candidate.sequence.length < 50 then none else some candidate
    | _, _, _, _ => none
  else none

/-- `load_antibody_data`: process each raw record independently, skipping
invalid ones; no per-record exception propagates. -/
def load_antibody_data (raw_data : List RawRecord) : List AntibodyCandidate :=
  raw_data.filterMap loadRecord

/-- Loader check 1 (completeness): all six required fields present. -/
def hasRequiredFields (record : RawRecord) : Bool :=
  requiredFields.all (fun field => (record.lookup field).isSome)

/-- Loader check 2 (type coercion): the four score fields coerce to float
(`str(...)` on `id`/`sequence` never fails). -/
def coercionsSucceed (record : RawRecord) : Bool :=
  (toFloat ((record.lookup "stability_score").getD RawValue.obj)).isSome &&
  (toFloat ((record.lookup "solubility_score").getD RawValue.obj)).isSome &&
  (toFloat ((record.lookup "immunogenicity_score").getD RawValue.obj)).isSome &&
  (toFloat ((record.lookup "binding_affinity").getD RawValue.obj)).isSome

/-- Loader check 3 (business rule): normalized (upper-cased) sequence has
length at least 50. -/
def sequenceLongEnough (record : RawRecord) : Bool :=
  decide (50 ≤ (pyUpper (pyStr ((record.lookup "sequence").getD RawValue.obj))).length)

/-! ## Reporter (`generate_report`)

The `timestamp` field is wall-clock input and is outside the model (all
properties are stated modulo `timestamp`, as the specification does);
console printing and file writing are I/O side effects with no influence
on the returned value and are likewise outside the model. -/

/-- Python `round(q, ndigits)` / `format(q, '.1f')`, modelled as rounding
`q` to `ndigits` decimal places (exact rationals have no representation
error, so half-way behavior only differs at exact decimal ties). -/
def roundTo (ndigits : Nat) (q : ℚ) : ℚ :=
  (round (q * 10 ^ ndigits) : ℤ) / 10 ^ ndigits

/-- Textual form of a nonnegative rational with one decimal digit,
modelling Python's `f"{x:.1f}"` on the nonnegative values this program
formats. -/
def formatOneDecimal (q : ℚ) : String :=
  let n : ℤ := round (q * 10)
  toString (n / 10) ++ "." ++ toString (n % 10)

/-- One entry of the report's `top_candidates` list: 1-based rank, all
`AntibodyCandidate` fields (via `asdict`), and the composite score rounded
to two decimals. -/
structure ReportEntry where
  rank : Nat
  id : String
  sequence : String
  stability_score : ℚ
  solubility_score : ℚ
  immunogenicity_score : ℚ
  binding_affinity : ℚ
  composite_score : ℚ
deriving DecidableEq, Repr

/-- The report's `summary` block. -/
structure ReportSummary where
  total_input : Nat
  passed_count : Nat
  pass_rate : String
deriving DecidableEq, Repr

/-- The structured report (minus the unmodelled `timestamp`). -/
structure Report where
  summary : ReportSummary
  top_candidates : List ReportEntry
  recommendations : List String
deriving DecidableEq, Repr

/-- One `top_candidates` entry from a 0-based index paired with a
candidate: `rank = idx + 1`, `**asdict(ab)`, and the rounded composite. -/
def mkEntry (p : Nat × AntibodyCandidate) : ReportEntry :=
  { rank := p.1 + 1
    id := p.2.id
    sequence := p.2.sequence
    stability_score := p.2.stability_score
    solubility_score := p.2.solubility_score
    immunogenicity_score := p.2.immunogenicity_score
    binding_affinity := p.2.binding_affinity
    composite_score := roundTo 2 (composite_score p.2) }

/-- The report dictionary built from the (already re-sorted) candidate
list; the `pass_rate` division is where `total_input = 0` raises
`ZeroDivisionError` in the source. -/
def reportBody (top_antibodies : List AntibodyCandidate) (total_input : Nat) :
    Except PyError Report :=
  if total_input = 0 then Except.error PyError.zeroDivision
  else Except.ok
    { summary :=
        { total_input := total_input
          passed_count := top_antibodies.length
          pass_rate :=
            formatOneDecimal ((top_antibodies.length : ℚ) / (total_input : ℚ) * 100) ++ "%" }
      top_candidates := top_antibodies.enum.map mkEntry
      recommendations := (top_antibodies.take 3).map (fun ab =>
        "优先推进候选抗体 " ++ ab.id ++ "（综合评分: " ++
          formatOneDecimal (composite_score ab) ++ "）") }

/-- `generate_report`: defensively re-sort the supplied list (Python's
`if top_antibodies:` skips the sort for an empty list), then build the
report. The sort's key evaluates `composite_score` on every element, so a
non-empty list containing a `binding_affinity = -1` candidate raises
`ZeroDivisionError` before the report dictionary is built (and the later
`round(ab.composite_score, 2)` and recommendation f-string would evaluate
the same property); otherwise `total_input = 0` raises `ZeroDivisionError`
in the `pass_rate` division. For an empty list the sort is skipped and no
composite score is evaluated, so only the `total_input` division can
raise. -/
def generate_report (top_antibodies : List AntibodyCandidate) (total_input : Nat) :
    Except PyError Report :=
  if top_antibodies.any (fun a => decide (a.binding_affinity + 1 = 0)) then
    Except.error PyError.zeroDivision
  else
    let sorted_list :=
      if top_antibodies.isEmpty then top_antibodies
      else sortByScoreDesc top_antibodies
    reportBody sorted_list total_input

/-! ### Frame model for the Reporter

To state that `generate_report` never mutates the caller's list, the
caller's list is held in an explicit store of list objects addressed by
references. Python's `sorted(...)` allocates a fresh list object and the
assignment `top_antibodies = sorted(...)` rebinds the local name to the
new reference; no in-place operation (`list.sort`, slice assignment, ...)
appears in the source. -/

/-- A store of Python list objects; a reference is an index. -/
structure PyListStore where
  cells : List (List AntibodyCandidate)
deriving Repr

/-- Dereference a list object. -/
def readList (store : PyListStore) (ref : Nat) : List AntibodyCandidate :=
  store.cells.getD ref []

/-- Allocate a fresh list object, returning the new store and the new
reference. -/
def allocList (store : PyListStore) (value : List AntibodyCandidate) :
    PyListStore × Nat :=
  ({ cells := store.cells ++ [value] }, store.cells.length)

/-- `generate_report` with the caller's list as an explicit store object:
the local name starts as an alias of the caller's reference; the defensive
re-sort allocates a fresh list and rebinds only the local name. When the
sort's key raises (`binding_affinity = -1` present), the exception
propagates with the caller's cell untouched. Returns the final store
together with the function's result. -/
def generate_report_alloc (store : PyListStore) (ref : Nat) (total_input : Nat) :
    PyListStore × Except PyError Report :=
  if (readList store ref).any (fun a => decide (a.binding_affinity + 1 = 0)) then
    (store, Except.error PyError.zeroDivision)
  else
    let localRef := ref
    let sortStep : PyListStore × Nat :=
      if (readList store localRef).isEmpty then (store, localRef)
      else allocList store (sortByScoreDesc (readList store localRef))
    (sortStep.1, reportBody (readList sortStep.1 sortStep.2) total_input)

/-! ## Concrete sample data (used by witnesses and counterexamples) -/

/-- A 100-character input sequence (lower-case, so that upper-casing is
observable). -/
def sampleSequence : String :=
  "abcdefghijabcdefghijabcdefghijabcdefghijabcdefghijabcdefghijabcdefghijabcdefghijabcdefghijabcdefghij"

/-- The raw record of the spec's concrete Loader scenario. -/
def sampleRawRecord : RawRecord :=
  [("id", RawValue.text "AB_0001"), ("sequence", RawValue.text sampleSequence),
   ("stability_score", RawValue.num 85), ("solubility_score", RawValue.num 70),
   ("immunogenicity_score", RawValue.num 25), ("binding_affinity", RawValue.num 0.5)]

/-- The Record the Loader produces from `sampleRawRecord`. -/
def sampleCandidate : AntibodyCandidate :=
  { id := "AB_0001"
    sequence := pyUpper sampleSequence
    stability_score := 85
    solubility_score := 70
    immunogenicity_score := 25
    binding_affinity := 0.5 }

/-- A raw record that is valid in every Loader-checked respect but has
`binding_affinity = -1`. -/
def affinityMinusOneRaw : RawRecord :=
  [("id", RawValue.text "AB_NEG"), ("sequence", RawValue.text sampleSequence),
   ("stability_score", RawValue.num 85), ("solubility_score", RawValue.num 70),
   ("immunogenicity_score", RawValue.num 25), ("binding_affinity", RawValue.num (-1))]

/-- A sample candidate with chosen numeric fields (sequence fixed). -/
def mkSample (i : String) (st so im ba : ℚ) : AntibodyCandidate :=
  { id := i
    sequence := pyUpper sampleSequence
    stability_score := st
    solubility_score := so
    immunogenicity_score := im
    binding_affinity := ba }

/-- A sample screening batch: three candidates pass the default gate, one
fails the stability threshold. -/
def screenSample : List AntibodyCandidate :=
  [mkSample "AB_a" 80 70 25 0.5, mkSample "AB_b" 90 80 25 0.5,
   mkSample "AB_c" 85 75 25 0.5, mkSample "AB_d" 70 70 25 0.5]

/-- The default configuration with `top_k = 2`. -/
def screenCfg : Config :=
  { stability_threshold := 75
    solubility_threshold := 60
    immunogenicity_threshold := 30
    top_k := 2 }

/-- A gate-passing candidate with `binding_affinity = -1`: its composite
score's denominator is zero, so evaluating the sort key on it raises. -/
def negCandidate : AntibodyCandidate := mkSample "AB_neg" 85 70 25 (-1)

/-- A one-cell store holding `screenSample`, for the Reporter frame
witness. -/
def sampleStore : PyListStore := { cells := [screenSample] }

/-! ## Theorems -/

/-- C1: for every Record, the composite score equals
`stability*0.30 + solubility*0.25 + (100 - immunogenicity)*0.25 +
min(100, 100/(affinity+1))*0.20`, and (for `binding_affinity ≠ -1`) it is
a pure function of the four numeric fields: two Records agreeing on those
fields get the same composite score. -/
theorem composite_score_formula_and_pure (c₁ c₂ : AntibodyCandidate)
    (hst : c₁.stability_score = c₂.stability_score)
    (hso : c₁.solubility_score = c₂.solubility_score)
    (him : c₁.immunogenicity_score = c₂.immunogenicity_score)
    (hba : c₁.binding_affinity = c₂.binding_affinity)
    (hne : c₁.binding_affinity ≠ -1) :
    composite_score c₁ = composite_formula_spec c₁ ∧
    composite_score c₁ = composite_score c₂ := by
  refine ⟨?_, ?_⟩
  · unfold composite_score composite_formula_spec
    norm_num
  · unfold composite_score
    rw [hst, hso, him, hba]

/-- Witness for C1 at two concrete Records sharing the four numeric
fields but differing in `id`. -/
theorem composite_score_formula_and_pure_witness :
    composite_score (mkSample "AB_a" 80 70 25 0.5) =
      composite_formula_spec (mkSample "AB_a" 80 70 25 0.5) ∧
    composite_score (mkSample "AB_a" 80 70 25 0.5) =
      composite_score (mkSample "AB_x" 80 70 25 0.5) :=
  composite_score_formula_and_pure (mkSample "AB_a" 80 70 25 0.5)
    (mkSample "AB_x" 80 70 25 0.5) rfl rfl rfl rfl (by norm_num [mkSample])

/-- C3 (code behavior at the failing input): on the empty candidate list,
`screen_antibodies` reaches the pass-rate log line, whose division by
`len(candidates) = 0` raises an unhandled `ZeroDivisionError`; the empty
input is NOT special-cased. -/
theorem screen_antibodies_empty_raises (config : Config) :
    screen_antibodies [] config = Except.error PyError.zeroDivision := rfl

/-- C4 (code behavior at the failing input): with `total_input = 0`,
`generate_report` reaches the `pass_rate` division by zero and raises an
unhandled `ZeroDivisionError`; there is no guard and no domain error is
reported. -/
theorem generate_report_zero_total_raises (lst : List AntibodyCandidate) :
    generate_report lst 0 = Except.error PyError.zeroDivision := by
  unfold generate_report
  by_cases hany : lst.any (fun a => decide (a.binding_affinity + 1 = 0)) = true
  · rw [if_pos hany]
  · rw [if_neg hany]
    rfl

/-- C5 counterexample: the Loader accepts a record with
`binding_affinity = -1` (nothing guards it), and the resulting Record's
composite-score denominator `binding_affinity + 1` is zero — so "the
denominator is never zero" is false for Loader-produced Records. -/
theorem loader_admits_zero_denominator :
    load_antibody_data [affinityMinusOneRaw] =
      [{ id := "AB_NEG"
         sequence := pyUpper sampleSequence
         stability_score := 85
         solubility_score := 70
         immunogenicity_score := 25
         binding_affinity := -1 }] ∧
    ((-1 : ℚ) + 1 = 0) :=
  ⟨rfl, by norm_num⟩

/-- C5 amended: the Loader does not guard `binding_affinity = -1`, so a
Loader-produced Record can have a zero composite-score denominator; the
denominator is nonzero exactly for those Loader outputs whose
`binding_affinity` differs from `-1`. -/
theorem loader_output_denominator_nonzero (raw_data : List RawRecord)
    (c : AntibodyCandidate) (hc : c ∈ load_antibody_data raw_data)
    (hne : c.binding_affinity ≠ -1) :
    c.binding_affinity + 1 ≠ 0 := by
  intro h
  exact hne (by linarith)

/-- Witness for the amended C5 at `sampleRawRecord`'s Loader output. -/
theorem loader_output_denominator_nonzero_witness :
    sampleCandidate.binding_affinity + 1 ≠ 0 :=
  loader_output_denominator_nonzero [sampleRawRecord] sampleCandidate
    (by rw [show load_antibody_data [sampleRawRecord] = [sampleCandidate] from rfl]
        exact List.mem_singleton.mpr rfl)
    (by norm_num [sampleCandidate])

/-- C9: the Loader, given the single raw record of the spec's concrete
scenario (scores 85/70/25, affinity 0.5, 100-character sequence),
produces exactly one Record with `id` unchanged and `sequence` the
upper-cased input sequence. -/
theorem loader_concrete_scenario :
    load_antibody_data [sampleRawRecord] = [sampleCandidate] ∧
    sampleCandidate.id = "AB_0001" ∧
    sampleCandidate.sequence = pyUpper sampleSequence ∧
    sampleSequence.length = 100 :=
  ⟨rfl, rfl, rfl, rfl⟩


/-- Characterization of one Loader iteration: a raw record yields a Record
exactly when it passes the three Loader checks (completeness, coercion,
sequence length). -/
theorem loadRecord_isSome_iff (record : RawRecord) :
    (loadRecord record).isSome ↔
      (hasRequiredFields record ∧ coercionsSucceed record ∧ sequenceLongEnough record) := by
  unfold loadRecord hasRequiredFields coercionsSucceed sequenceLongEnough
  by_cases hall : requiredFields.all (fun field => (record.lookup field).isSome)
  · rw [if_pos hall]
    cases h1 : toFloat ((record.lookup "stability_score").getD RawValue.obj) <;>
      cases h2 : toFloat ((record.lookup "solubility_score").getD RawValue.obj) <;>
        cases h3 : toFloat ((record.lookup "immunogenicity_score").getD RawValue.obj) <;>
          cases h4 : toFloat ((record.lookup "binding_affinity").getD RawValue.obj) <;>
            simp [hall, h1, h2, h3, h4]
  · rw [if_neg hall]
    simp [hall]

/-- C6: the Loader's output length never exceeds its input length, with
equality exactly when every input record passes all three Loader checks.
(The Loader is a total function of its input — in this embedding no
per-record exception can propagate, matching the `try/except ... continue`
structure of the source.) -/
theorem loader_length_le_and_eq_iff (raw_data : List RawRecord) :
    (load_antibody_data raw_data).length ≤ raw_data.length ∧
    ((load_antibody_data raw_data).length = raw_data.length ↔
      ∀ record ∈ raw_data,
        hasRequiredFields record ∧ coercionsSucceed record ∧ sequenceLongEnough record) := by
  refine ⟨List.length_filterMap_le loadRecord raw_data, ?_⟩
  induction raw_data with
  | nil => simp [load_antibody_data]
  | cons r t ih =>
    rcases hr : loadRecord r with _ | c
    · have hfail : ¬(hasRequiredFields r ∧ coercionsSucceed r ∧ sequenceLongEnough r) := by
        rw [← loadRecord_isSome_iff, hr]
        simp
      have hle := List.length_filterMap_le loadRecord t
      simp only [load_antibody_data, List.filterMap_cons, hr, List.length_cons] at *
      constructor
      · intro h
        omega
      · intro h
        exact absurd (h r (by simp)) hfail
    · have hok : hasRequiredFields r ∧ coercionsSucceed r ∧ sequenceLongEnough r := by
        rw [← loadRecord_isSome_iff, hr]
        simp
      simp only [load_antibody_data, List.filterMap_cons, hr] at *
      simp only [List.length_cons, Nat.succ_inj, List.mem_cons]
      rw [ih]
      constructor
      · intro h x hx
        rcases hx with hx | hx
        · exact hx ▸ hok
        · exact h x hx
      · intro h x hx
        exact h x (Or.inr hx)

/-- The `continue`-structured gate of the source equals the spec's
three-conjunct gate. -/
theorem passesGate_eq_specGate (config : Config) (a : AntibodyCandidate) :
    passesGate config a = specGate config a := by
  unfold passesGate specGate
  rcases lt_or_le a.stability_score config.stability_threshold with h1 | h1
  · rw [if_pos h1]
    symm
    simp [not_le.mpr h1]
  · rw [if_neg (not_lt.mpr h1)]
    rcases lt_or_le a.solubility_score config.solubility_threshold with h2 | h2
    · rw [if_pos h2]
      symm
      simp [not_le.mpr h2]
    · rw [if_neg (not_lt.mpr h2)]
      rcases lt_or_le config.immunogenicity_threshold a.immunogenicity_score with h3 | h3
      · rw [if_pos h3]
        symm
        simp [not_le.mpr h3]
      · rw [if_neg (not_lt.mpr h3)]
        symm
        simp [h1, h2, h3]

/-- C2 counterexample: the claim fails as stated — on the non-empty list
`[negCandidate]` (a gate-passing candidate with `binding_affinity = -1`),
`screen_antibodies` raises `ZeroDivisionError` evaluating the sort key and
returns nothing, instead of returning the sorted survivors. -/
theorem screen_antibodies_spec_counterexample :
    screen_antibodies [negCandidate] screenCfg = Except.error PyError.zeroDivision ∧
    [negCandidate] ≠ ([] : List AntibodyCandidate) ∧
    passesGate screenCfg negCandidate = true := by
  refine ⟨by with_unfolding_all rfl, by simp, by with_unfolding_all rfl⟩

/-- C2 (amended): on every non-empty candidate list in which no
gate-passing candidate has `binding_affinity = -1` (otherwise the sort
key raises `ZeroDivisionError`), `screen_antibodies` returns exactly the
first `top_k` survivors sorted by composite score descending, where a
candidate survives iff `stability_score ≥ stability_threshold`,
`solubility_score ≥ solubility_threshold`, and
`immunogenicity_score ≤ immunogenicity_threshold`; the output is sorted
descending, never longer than `top_k`, and when at most `top_k` survive,
all survivors are returned. -/
theorem screen_antibodies_spec (candidates : List AntibodyCandidate) (config : Config)
    (h : candidates ≠ [])
    (hdiv : ∀ a ∈ candidates, passesGate config a = true → a.binding_affinity ≠ -1) :
    ∃ result, screen_antibodies candidates config = Except.ok result ∧
      result = (sortByScoreDesc (candidates.filter (specGate config))).take config.top_k ∧
      List.Sorted scoreGE result ∧
      result.length ≤ config.top_k ∧
      ((candidates.filter (specGate config)).length ≤ config.top_k →
        result = sortByScoreDesc (candidates.filter (specGate config))) := by
  have hfilter : candidates.filter (passesGate config) = candidates.filter (specGate config) := by
    apply List.filter_congr
    intro x _
    exact passesGate_eq_specGate config x
  have hlen : candidates.length ≠ 0 := by
    simpa [List.length_eq_zero] using h
  have hany : (candidates.filter (passesGate config)).any
      (fun a => decide (a.binding_affinity + 1 = 0)) = false := by
    rw [List.any_eq_false]
    intro a ha
    rw [List.mem_filter] at ha
    simp only [decide_eq_true_eq]
    intro h0
    exact hdiv a ha.1 ha.2 (by linarith)
  rw [hfilter] at hany
  refine ⟨(sortByScoreDesc (candidates.filter (specGate config))).take config.top_k,
    ?_, rfl, ?_, ?_, ?_⟩
  · unfold screen_antibodies
    simp only [hfilter, hany, Bool.false_eq_true, if_false, ite_false, hlen]
  · exact (List.sorted_insertionSort scoreGE _).sublist (List.take_sublist _ _)
  · rw [List.length_take]
    exact min_le_left _ _
  · intro hle
    apply List.take_of_length_le
    rw [sortByScoreDesc, List.length_insertionSort]
    exact hle

/-- Witness for C2 at the concrete batch `screenSample` with `top_k = 2`. -/
theorem screen_antibodies_spec_witness :
    ∃ result, screen_antibodies screenSample screenCfg = Except.ok result ∧
      result = (sortByScoreDesc (screenSample.filter (specGate screenCfg))).take screenCfg.top_k ∧
      List.Sorted scoreGE result ∧
      result.length ≤ screenCfg.top_k ∧
      ((screenSample.filter (specGate screenCfg)).length ≤ screenCfg.top_k →
        result = sortByScoreDesc (screenSample.filter (specGate screenCfg))) :=
  screen_antibodies_spec screenSample screenCfg (by simp [screenSample])
    (by with_unfolding_all decide)

/-- Stability of one insertion step: for any score value `c`, inserting
`a` prepends `a` to the `c`-scored sublist when `a` scores `c` (every
element passed over scores strictly above `a`), and leaves it unchanged
otherwise. -/
theorem filter_score_orderedInsert (c : ℚ) (a : AntibodyCandidate)
    (l : List AntibodyCandidate) :
    (List.orderedInsert scoreGE a l).filter (fun x => decide (composite_score x = c)) =
      if composite_score a = c then
        a :: l.filter (fun x => decide (composite_score x = c))
      else l.filter (fun x => decide (composite_score x = c)) := by
  induction l with
  | nil =>
    by_cases h : composite_score a = c <;> simp [List.orderedInsert, h]
  | cons b t ih =>
    by_cases hr : scoreGE a b
    · by_cases h : composite_score a = c <;>
        simp [List.orderedInsert, hr, h]
    · have hb : composite_score a < composite_score b := lt_of_not_le hr
      by_cases h : composite_score a = c
      · have hbc : ¬(composite_score b = c) := by
          rw [← h]
          exact ne_of_gt hb
        simp [List.orderedInsert, hr, h, hbc, ih]
      · by_cases hbc : composite_score b = c <;>
          simp [List.orderedInsert, hr, h, hbc, ih]

/-- Stability of the ranking sort: for every score value `c`, the sorted
list's sublist of candidates scoring exactly `c` is the input's sublist of
such candidates, in input order. -/
theorem filter_score_sortByScoreDesc (c : ℚ) (l : List AntibodyCandidate) :
    (sortByScoreDesc l).filter (fun x => decide (composite_score x = c)) =
      l.filter (fun x => decide (composite_score x = c)) := by
  induction l with
  | nil => rfl
  | cons a t ih =>
    show (List.orderedInsert scoreGE a (List.insertionSort scoreGE t)).filter _ = _
    rw [filter_score_orderedInsert]
    rw [show List.insertionSort scoreGE t = sortByScoreDesc t from rfl, ih, List.filter_cons]
    by_cases h : composite_score a = c <;> simp [h]

/-- C7: the sort performed by `screen_antibodies` is stable — the output
is a prefix (`take top_k`) of a ranked list in which, for every composite
score value, the candidates carrying that score appear exactly as in the
gate-filtered input, i.e. equal-scored survivors keep their relative
input order. -/
theorem screen_antibodies_sort_stable (candidates : List AntibodyCandidate)
    (config : Config) (result : List AntibodyCandidate)
    (h : screen_antibodies candidates config = Except.ok result) :
    ∃ ranked : List AntibodyCandidate, result = ranked.take config.top_k ∧
      ∀ c : ℚ, ranked.filter (fun x => decide (composite_score x = c)) =
        (candidates.filter (passesGate config)).filter
          (fun x => decide (composite_score x = c)) := by
  refine ⟨sortByScoreDesc (candidates.filter (passesGate config)), ?_,
    fun c => filter_score_sortByScoreDesc c _⟩
  unfold screen_antibodies at h
  by_cases hany : (candidates.filter (passesGate config)).any
      (fun a => decide (a.binding_affinity + 1 = 0)) = true
  · simp only [hany, if_true, ite_true] at h
    exact absurd h (by simp)
  · simp only [hany, Bool.false_eq_true, if_false, ite_false] at h
    by_cases hlen : candidates.length = 0
    · simp only [hlen, if_true, ite_true] at h
      exact absurd h (by simp)
    · simp only [hlen, if_false, ite_false] at h
      exact (Except.ok.injEq _ _ ▸ h).symm

set_option maxRecDepth 100000 in
/-- Witness for C7 at the concrete batch `screenSample`, whose screening
output is computed explicitly. -/
theorem screen_antibodies_sort_stable_witness :
    ∃ ranked : List AntibodyCandidate,
      [mkSample "AB_b" 90 80 25 0.5, mkSample "AB_c" 85 75 25 0.5] =
        ranked.take screenCfg.top_k ∧
      ∀ c : ℚ, ranked.filter (fun x => decide (composite_score x = c)) =
        (screenSample.filter (passesGate screenCfg)).filter
          (fun x => decide (composite_score x = c)) :=
  screen_antibodies_sort_stable screenSample screenCfg
    [mkSample "AB_b" 90 80 25 0.5, mkSample "AB_c" 85 75 25 0.5]
    (by with_unfolding_all rfl)

/-- Rounding to `n` decimal places is monotone. -/
theorem roundTo_mono (n : Nat) {a b : ℚ} (h : a ≤ b) : roundTo n a ≤ roundTo n b := by
  unfold roundTo
  have hr : round (a * 10 ^ n) ≤ round (b * 10 ^ n) := by
    rw [round_eq, round_eq]
    apply Int.floor_le_floor
    have : a * 10 ^ n ≤ b * 10 ^ n := by
      apply mul_le_mul_of_nonneg_right h
      positivity
    linarith
  have hp : (0 : ℚ) < 10 ^ n := by positivity
  apply (div_le_div_iff_of_pos_right hp).mpr
  exact_mod_cast hr

/-- The ranks of the report entries built from a list are `1, 2, ...,
length`. -/
theorem map_rank_mkEntry (l : List AntibodyCandidate) :
    (l.enum.map mkEntry).map (fun e => e.rank) = List.range' 1 l.length := by
  rw [List.map_map]
  have h1 : ((fun e => e.rank) ∘ mkEntry) = (fun p : Nat × AntibodyCandidate => p.1 + 1) := rfl
  rw [h1]
  have h2 : (fun p : Nat × AntibodyCandidate => p.1 + 1) =
      (fun n => n + 1) ∘ Prod.fst := rfl
  rw [h2, ← List.map_map, List.enum_map_fst, List.range'_eq_map_range]
  apply List.map_congr_left
  intro x _
  omega

/-- Report entries built from a descending-sorted candidate list have
non-increasing (rounded) composite scores. -/
theorem entries_sorted_of_sorted (l : List AntibodyCandidate)
    (hl : List.Sorted scoreGE l) :
    List.Pairwise (fun e₁ e₂ : ReportEntry => e₂.composite_score ≤ e₁.composite_score)
      (l.enum.map mkEntry) := by
  rw [List.pairwise_map]
  have hsnd : List.Pairwise (fun p q : Nat × AntibodyCandidate => scoreGE p.2 q.2) l.enum := by
    have := hl
    rw [show l = l.enum.map Prod.snd from (List.enum_map_snd l).symm] at this
    rw [List.Sorted, List.pairwise_map] at this
    exact this
  apply hsnd.imp
  intro p q hpq
  exact roundTo_mono 2 hpq

/-- C8 counterexample: the claim fails as stated — on a list containing a
`binding_affinity = -1` candidate, `generate_report` with `total_input =
5 > 0` raises `ZeroDivisionError` in the defensive sort's key and produces
no report at all (no `summary`, no sorted `top_candidates`). -/
theorem generate_report_minus_one_counterexample :
    generate_report [negCandidate] 5 = Except.error PyError.zeroDivision ∧
    (0 : Nat) < 5 := by
  refine ⟨by with_unfolding_all rfl, by decide⟩

/-- C8 (amended): for every candidate list containing no
`binding_affinity = -1` candidate (otherwise the defensive sort's key
raises `ZeroDivisionError`) and `total_input ≠ 0`, `generate_report`
succeeds, two calls on the same unmutated list yield identical `summary`
and `top_candidates` (the modelled function is deterministic; `timestamp`
is outside the model), and — whatever order the input list had — the
`top_candidates` listing is sorted by composite score descending with
1-based consecutive ranks. -/
theorem generate_report_deterministic_sorted_ranked (lst : List AntibodyCandidate)
    (total : Nat) (h : total ≠ 0)
    (hdiv : ∀ a ∈ lst, a.binding_affinity ≠ -1) :
    ∃ rep : Report, generate_report lst total = Except.ok rep ∧
      (∀ rep₂ : Report, generate_report lst total = Except.ok rep₂ →
        rep₂.summary = rep.summary ∧ rep₂.top_candidates = rep.top_candidates) ∧
      List.Pairwise (fun e₁ e₂ : ReportEntry => e₂.composite_score ≤ e₁.composite_score)
        rep.top_candidates ∧
      rep.top_candidates.map (fun e => e.rank) =
        List.range' 1 rep.top_candidates.length := by
  have hany : lst.any (fun a => decide (a.binding_affinity + 1 = 0)) = false := by
    rw [List.any_eq_false]
    intro a ha
    simp only [decide_eq_true_eq]
    intro h0
    exact hdiv a ha (by linarith)
  have hrep : generate_report lst total =
      reportBody (if lst.isEmpty then lst else sortByScoreDesc lst) total := by
    unfold generate_report
    simp only [hany, Bool.false_eq_true, if_false, ite_false]
  have hsorted : List.Sorted scoreGE (if lst.isEmpty then lst else sortByScoreDesc lst) := by
    by_cases he : lst.isEmpty
    · rw [if_pos he, List.isEmpty_iff.mp he]
      exact List.sorted_nil
    · rw [if_neg he]
      exact List.sorted_insertionSort scoreGE lst
  rcases hR : reportBody (if lst.isEmpty then lst else sortByScoreDesc lst) total with e | rep
  · exfalso
    unfold reportBody at hR
    rw [if_neg h] at hR
    exact absurd hR (by simp)
  · have htc : rep.top_candidates =
        (if lst.isEmpty then lst else sortByScoreDesc lst).enum.map mkEntry := by
      unfold reportBody at hR
      rw [if_neg h] at hR
      injection hR with h'
      rw [← h']
    refine ⟨rep, hrep.trans hR, ?_, ?_, ?_⟩
    · intro rep₂ h₂
      rw [hrep, hR] at h₂
      injection h₂ with h'
      rw [h']
      exact ⟨rfl, rfl⟩
    · rw [htc]
      exact entries_sorted_of_sorted _ hsorted
    · rw [htc, List.length_map, List.enum_length]
      exact map_rank_mkEntry _

/-- Witness for C8 at the concrete batch `screenSample` with
`total_input = 4`. -/
theorem generate_report_deterministic_sorted_ranked_witness :
    ∃ rep : Report, generate_report screenSample 4 = Except.ok rep ∧
      (∀ rep₂ : Report, generate_report screenSample 4 = Except.ok rep₂ →
        rep₂.summary = rep.summary ∧ rep₂.top_candidates = rep.top_candidates) ∧
      List.Pairwise (fun e₁ e₂ : ReportEntry => e₂.composite_score ≤ e₁.composite_score)
        rep.top_candidates ∧
      rep.top_candidates.map (fun e => e.rank) =
        List.range' 1 rep.top_candidates.length :=
  generate_report_deterministic_sorted_ranked screenSample 4 (by decide)
    (by with_unfolding_all decide)

/-- C10: `generate_report` never mutates the caller's list: in the
store-passing model, the caller's cell holds the same Records in the same
order after the call (`sorted` allocates a fresh list and the assignment
rebinds only the local name), and the returned report agrees with the
pure model. -/
theorem generate_report_no_mutation (store : PyListStore) (ref total : Nat)
    (h : ref < store.cells.length) :
    readList (generate_report_alloc store ref total).1 ref = readList store ref ∧
    (generate_report_alloc store ref total).2 = generate_report (readList store ref) total := by
  by_cases hany : (readList store ref).any
      (fun a => decide (a.binding_affinity + 1 = 0)) = true
  · simp only [generate_report_alloc, generate_report, hany, if_true, ite_true]
    exact ⟨trivial, trivial⟩
  · cases he : (readList store ref).isEmpty with
  | true =>
    simp only [generate_report_alloc, generate_report, hany, he, Bool.false_eq_true,
      if_false, ite_false, if_true, ite_true]
    exact ⟨trivial, trivial⟩
  | false =>
    simp only [generate_report_alloc, generate_report, hany, he, Bool.false_eq_true,
      if_false, ite_false]
    constructor
    · show readList (allocList store (sortByScoreDesc (readList store ref))).1 ref =
        readList store ref
      unfold allocList readList
      exact List.getD_append _ _ _ _ h
    · show reportBody (readList (allocList store (sortByScoreDesc (readList store ref))).1
          (allocList store (sortByScoreDesc (readList store ref))).2) total = _
      unfold allocList readList
      rw [List.getD_eq_getElem?_getD, List.getElem?_concat_length]
      rfl

/-- Witness for C10 at a one-cell store holding `screenSample`. -/
theorem generate_report_no_mutation_witness :
    readList (generate_report_alloc sampleStore 0 4).1 0 = readList sampleStore 0 ∧
    (generate_report_alloc sampleStore 0 4).2 = generate_report (readList sampleStore 0) 4 :=
  generate_report_no_mutation sampleStore 0 4 (by simp [sampleStore])
